import Mathlib

/-!
Verification of the embedded data store, aggregation and import/export
reconciliation logic of a local-first personal-finance ledger
(React + Dexie/IndexedDB application).

Modelling conventions:
* JS numbers (expense/budget amounts) are modelled as rationals.
* Calendar dates (ISO `YYYY-MM-DD` strings in the source) are modelled as
  epoch day numbers (`Int`); lexicographic order on valid ISO date strings
  coincides with the numeric order of their day numbers, so both the Dexie
  string-keyed `between` ranges and the `parseISO`-based comparisons of the
  source are represented by `≤` on `Int`.
* Wall-clock timestamps (`createdAt`, `updatedAt`, `time`) are opaque strings.
* Asynchronous Dexie operations are modelled as pure state transformers
  returning an outcome together with the new store state; a rejected promise
  (caught by the surrounding handler) is an error outcome.
-/

namespace ETSep

/-- Expense entity, from `shared/schema.ts` (`expenseSchema`).  The source
field `where` is named `place` here because `where` is a Lean keyword. -/
structure Expense where
  id : String
  amount : ℚ
  date : Int
  time : String
  category : String
  items : String
  place : String
  note : String
  paymentMethod : String
  account : String
  isRecurring : Bool
  isTemplate : Bool
  attachments : List String
  createdAt : String
  updatedAt : String
deriving Repr, DecidableEq

/-- Expense creation payload (`InsertExpense` in `shared/schema.ts`): an
expense without `id`, `createdAt`, `updatedAt` (those are set by the store). -/
structure InsertExpense where
  amount : ℚ
  date : Int
  time : String
  category : String
  items : String
  place : String
  note : String
  paymentMethod : String
  account : String
  isRecurring : Bool
  isTemplate : Bool
  attachments : List String
deriving Repr, DecidableEq

/-- Category entity, from `shared/schema.ts` (`categorySchema`). -/
structure Category where
  id : String
  name : String
  icon : String
  color : String
  isDefault : Bool
deriving Repr, DecidableEq

/-- Budget entity, from `shared/schema.ts` (`budgetSchema`). -/
structure Budget where
  id : String
  name : String
  amount : ℚ
  category : String
  period : String
  startDate : String
  isActive : Bool
  createdAt : String
  updatedAt : String
deriving Repr, DecidableEq

/-- Settings singleton record, from `shared/schema.ts` (`settingsSchema`). -/
structure Settings where
  id : String
  currency : String
  theme : String
  language : String
  notifications : Bool
  budgetAlerts : Bool
deriving Repr, DecidableEq

/-- The four persisted collections of `client/src/lib/db.ts`.  The settings
singleton is seeded at first initialization (the `db.on ready` hook) and never
deleted, so it is modelled as an always-present record. -/
structure Store where
  expenses : List Expense
  budgets : List Budget
  categories : List Category
  settings : Settings
deriving Repr, DecidableEq

/-- Outcome of a single CRUD mutation as reported to the user by the hooks in
`use-expenses.ts` (success toast vs error toast).  The `notFound` and
`validationError` alternatives are part of the specified error taxonomy and
are included so that statements about them can be expressed; whether the code
ever produces them is exactly what is proved below. -/
inductive MutationOutcome where
  | success
  | failure
  | notFound
  | validationError
deriving Repr, DecidableEq

/-- Build the entity stored by `useAddExpense` (`use-expenses.ts`): the input
spread together with a freshly generated id and `createdAt = updatedAt = now`. -/
def mkExpense (input : InsertExpense) (newId now : String) : Expense :=
  { id := newId
    amount := input.amount
    date := input.date
    time := input.time
    category := input.category
    items := input.items
    place := input.place
    note := input.note
    paymentMethod := input.paymentMethod
    account := input.account
    isRecurring := input.isRecurring
    isTemplate := input.isTemplate
    attachments := input.attachments
    createdAt := now
    updatedAt := now }

/-- The `useAddExpense` mutation (`use-expenses.ts`): `db.expenses.add` stores
the new entity; Dexie `add` rejects (ConstraintError, reported by the error
toast) when the primary key already exists.  No field validation happens here. -/
def addExpense (input : InsertExpense) (newId now : String) (s : Store) :
    MutationOutcome × Store :=
  if s.expenses.any (fun e => e.id = newId) then (.failure, s)
  else (.success, { s with expenses := s.expenses ++ [mkExpense input newId now] })

/-- The `useExpenses` query (`use-expenses.ts`):
`db.expenses.orderBy createdAt` followed by `reverse`. -/
def listExpenses (s : Store) : List Expense :=
  (s.expenses.insertionSort (fun a b => a.createdAt ≤ b.createdAt)).reverse

/-- Field set accepted by `useUpdateExpense` (`updates : Partial Expense`):
every non-key field may be supplied or omitted.  The primary key itself is not
updatable through Dexie `Table.update`. -/
structure ExpenseUpdate where
  amount : Option ℚ
  date : Option Int
  time : Option String
  category : Option String
  items : Option String
  place : Option String
  note : Option String
  paymentMethod : Option String
  account : Option String
  isRecurring : Option Bool
  isTemplate : Option Bool
  attachments : Option (List String)
  createdAt : Option String
deriving Repr, DecidableEq

/-- Apply the change object `\x7b ...updates, updatedAt: now \x7d` of
`useUpdateExpense` to a stored entity: provided fields replace the stored
ones, `updatedAt` is always set to `now`. -/
def applyExpenseUpdate (e : Expense) (u : ExpenseUpdate) (now : String) : Expense :=
  { id := e.id
    amount := u.amount.getD e.amount
    date := u.date.getD e.date
    time := u.time.getD e.time
    category := u.category.getD e.category
    items := u.items.getD e.items
    place := u.place.getD e.place
    note := u.note.getD e.note
    paymentMethod := u.paymentMethod.getD e.paymentMethod
    account := u.account.getD e.account
    isRecurring := u.isRecurring.getD e.isRecurring
    isTemplate := u.isTemplate.getD e.isTemplate
    attachments := u.attachments.getD e.attachments
    createdAt := u.createdAt.getD e.createdAt
    updatedAt := now }

/-- The `useUpdateExpense` mutation (`use-expenses.ts`): Dexie
`Table.update id changes` applies the changes to the record with primary key
`id` and resolves with the number of updated records — `0` when the id is
absent.  The promise resolves either way, so the mutation reports success. -/
def updateExpense (id : String) (u : ExpenseUpdate) (now : String) (s : Store) :
    MutationOutcome × Store :=
  (.success,
    { s with
      expenses := s.expenses.map (fun e =>
        if e.id = id then applyExpenseUpdate e u now else e) })

/-- Closed payment-method enumeration of `expenseFormSchema`
(`shared/schema.ts`). -/
def paymentMethods : List String := ["UPI", "Cash", "Card", "Other"]

/-- Closed account enumeration of `expenseFormSchema` (`shared/schema.ts`). -/
def accounts : List String := ["ICICI", "HDFC", "SBI", "Other"]

/-- UI-level form validation, from `expenseFormSchema` in `shared/schema.ts`
(used only through `zodResolver` in `expense-form.tsx`): positive amount,
non-empty time/category, enum membership for payment method and account.
The schema's non-empty check on the date string is vacuous here because dates
are modelled as day numbers (every modelled date is a present, valid date). -/
def validExpenseForm (i : InsertExpense) : Bool :=
  decide (0 < i.amount) && (i.time != "") && (i.category != "") &&
    paymentMethods.contains i.paymentMethod && accounts.contains i.account

/-- Sum of amounts via `reduce((sum, e) => sum + e.amount, 0)`. -/
def sumAmounts (es : List Expense) : ℚ :=
  es.foldl (fun acc e => acc + e.amount) 0

/-- The custom-range aggregate of `useExpenseTotals` (`rangeTotal`): filter the
expenses whose date lies between the start of day of `lo` and the end of day of
`hi` (a closed day interval) and sum their amounts. -/
def rangeTotal (lo hi : Int) (s : Store) : ℚ :=
  sumAmounts (s.expenses.filter (fun e => decide (lo ≤ e.date) && decide (e.date ≤ hi)))

/-- Day-of-week index of an epoch day number, matching JS `Date.getDay`:
0 = Sunday.  Epoch day 0 (1970-01-01) was a Thursday, index 4. -/
def dayOfWeek (d : Int) : Int := (d + 4) % 7

/-- The week anchor used by both week aggregates: `useExpenseStats` computes
`setDate(getDate() - getDay())` and `useExpenseTotals` uses the date-fns
`startOfWeek` with its default Sunday week start — the Sunday of the week
containing `today`. -/
def sundayOf (today : Int) : Int := today - dayOfWeek today

/-- Week total of `useExpenseStats` (`use-expenses.ts`): filters with
`expense.date >= weekStart` only — there is no upper bound. -/
def weekTotalStats (today : Int) (s : Store) : ℚ :=
  sumAmounts (s.expenses.filter (fun e => decide (sundayOf today ≤ e.date)))

/-- Week total of `useExpenseTotals` (the `use-expenses.ts` revision bundled in
`App.tsx`): keeps the expenses between `startOfWeek now` and `endOfWeek now`,
i.e. between the Sunday and the following Saturday, both inclusive. -/
def weekTotalRange (today : Int) (s : Store) : ℚ :=
  sumAmounts (s.expenses.filter (fun e =>
    decide (sundayOf today ≤ e.date) && decide (e.date ≤ sundayOf today + 6)))

/-- The JSON bundle of `settings.tsx`: top-level keys `expenses`, `budgets`,
`categories`, `settings`, `exportDate`.  `importData` guards each key with an
existence check, so each is modelled as optional. -/
structure Bundle where
  expenses : Option (List Expense)
  budgets : Option (List Budget)
  categories : Option (List Category)
  settings : Option Settings
  exportDate : String
deriving Repr, DecidableEq

/-- JSON export (`exportData` in `settings.tsx`): serializes the full current
contents of the three collections and the settings singleton, plus an
`exportDate` timestamp. -/
def exportData (s : Store) (exportDate : String) : Bundle :=
  { expenses := some s.expenses
    budgets := some s.budgets
    categories := some s.categories
    settings := some s.settings
    exportDate := exportDate }

/-- Modelled from the spec: the `useUpdateSettings` hook
(`client/src/hooks/use-settings.ts` is not among the available sources; only
its callers are).  Per the spec the Settings record is a singleton that is
"only ever updated in place", so applying a full Settings record to the store
replaces the singleton's fields with the provided ones. -/
def updateSettings (v : Settings) (s : Store) : Store :=
  { s with settings := v }

/-- Dexie `Table.bulkAdd`: items are added one by one; an item whose primary
key collides with an already-present key fails individually, the remaining
items are still attempted, and a `BulkError` is thrown at the end when any
item failed.  Returns the error flag together with the resulting table. -/
def bulkAddKeyed (key : α → String) (cur : List α) (items : List α) :
    Bool × List α :=
  items.foldl
    (fun acc it =>
      if acc.2.any (fun x => key x = key it) then (true, acc.2)
      else (acc.1, acc.2 ++ [it]))
    (false, cur)

/-- One step of the import sequence: `if (data.expenses) await
db.expenses.bulkAdd(data.expenses)` — skipped when the key is absent. -/
def addExpensesStep (ob : Option (List Expense)) (s : Store) : Bool × Store :=
  match ob with
  | none => (false, s)
  | some es =>
    ((bulkAddKeyed Expense.id [] es).1,
      { s with expenses := (bulkAddKeyed Expense.id [] es).2 })

/-- Import step for the `budgets` key. -/
def addBudgetsStep (ob : Option (List Budget)) (s : Store) : Bool × Store :=
  match ob with
  | none => (false, s)
  | some bs =>
    ((bulkAddKeyed Budget.id [] bs).1,
      { s with budgets := (bulkAddKeyed Budget.id [] bs).2 })

/-- Import step for the `categories` key. -/
def addCategoriesStep (ob : Option (List Category)) (s : Store) : Bool × Store :=
  match ob with
  | none => (false, s)
  | some cs =>
    ((bulkAddKeyed Category.id [] cs).1,
      { s with categories := (bulkAddKeyed Category.id [] cs).2 })

/-- Import step for the `settings` key: `if (data.settings) await
updateSettingsMutation.mutateAsync(data.settings)`. -/
def applySettingsStep (os : Option Settings) (s : Store) : Store :=
  match os with
  | none => s
  | some st => updateSettings st s

/-- User-visible outcome of a JSON import (`importData` in `settings.tsx`).
The `catch` block shows one fixed error toast; every thrown error — a JSON
parse failure as well as a failed bulk insert — is reported by that same
`importError` outcome.  `cancelled` is the silent path taken when the user
declines the confirmation dialog. -/
inductive ImportOutcome where
  | success
  | importError
  | cancelled
deriving Repr, DecidableEq

/-- Body of the confirmed JSON import (`importData` in `settings.tsx`, after
`JSON.parse` succeeded and the user confirmed): clear the three collections,
then bulk-insert each bundle key that is present, in order
expenses → budgets → categories → settings.  An error thrown by a bulk insert
jumps to the common catch (the generic error toast) and skips the remaining
steps, leaving the store partially restored. -/
def importParsed (data : Bundle) (s : Store) : ImportOutcome × Store :=
  let s0 : Store := { s with expenses := [], budgets := [], categories := [] }
  let r1 := addExpensesStep data.expenses s0
  if r1.1 then (.importError, r1.2) else
  let r2 := addBudgetsStep data.budgets r1.2
  if r2.1 then (.importError, r2.2) else
  let r3 := addCategoriesStep data.categories r2.2
  if r3.1 then (.importError, r3.2) else
  (.success, applySettingsStep data.settings r3.2)

/-- The JSON import handler (`importData` in `settings.tsx`).  `JSON.parse`
runs first; a malformed document throws into the catch (generic error toast)
before the confirmation dialog and before any store mutation.  The `parsed`
argument is the outcome of that external `JSON.parse` call: `none` for a
document that is not well-formed JSON. -/
def importData (parsed : Option Bundle) (confirmed : Bool) (s : Store) :
    ImportOutcome × Store :=
  match parsed with
  | none => (.importError, s)
  | some data => if confirmed then importParsed data s else (.cancelled, s)

/-- A cell of the `Expenses` worksheet as produced by `sheet_to_json`:
`none` models a missing cell.  The `Amount` cell is modelled by its
`parseFloat` result, `none` when missing or unparsable (NaN). -/
structure ExpenseRow where
  date : Option Int
  time : Option String
  amount : Option ℚ
  category : Option String
  items : Option String
  location : Option String
  paymentMethod : Option String
  account : Option String
  notes : Option String
  createdAt : Option String
deriving Repr, DecidableEq

/-- A row of the `Budgets` worksheet.  The `Is Active` cell keeps its literal
text: the source compares it with `=== 'Yes'`. -/
structure BudgetRow where
  name : Option String
  amount : Option ℚ
  category : Option String
  period : Option String
  startDate : Option String
  isActive : Option String
  createdAt : Option String
deriving Repr, DecidableEq

/-- JS `cell || default` for string cells: the default applies when the cell
is missing and also when it holds the empty string (both are falsy). -/
def cellOr (c : Option String) (dflt : String) : String :=
  match c with
  | none => dflt
  | some v => if v = "" then dflt else v

/-- Per-row Expense construction of `importFromExcel` (`settings.tsx`): a
fresh `crypto.randomUUID()` identifier, per-field defaults applied
independently, fixed `false`/empty values for the flags and attachments. -/
def rowToExpense (r : ExpenseRow) (freshId : String) (today : Int) (now : String) :
    Expense :=
  { id := freshId
    amount := r.amount.getD 0
    date := r.date.getD today
    time := cellOr r.time "00:00"
    category := cellOr r.category "other"
    items := cellOr r.items ""
    place := cellOr r.location ""
    note := cellOr r.notes ""
    paymentMethod := cellOr r.paymentMethod "UPI"
    account := cellOr r.account "Other"
    isRecurring := false
    isTemplate := false
    attachments := []
    createdAt := cellOr r.createdAt now
    updatedAt := now }

/-- Per-row Budget construction of `importFromExcel` (`settings.tsx`):
fresh identifier, defaults per field, and `isActive` true exactly when the
`Is Active` cell is literally `Yes`. -/
def rowToBudget (r : BudgetRow) (freshId : String) (todayStr now : String) :
    Budget :=
  { id := freshId
    name := cellOr r.name "Budget"
    amount := r.amount.getD 0
    category := cellOr r.category "other"
    period := cellOr r.period "monthly"
    startDate := cellOr r.startDate todayStr
    isActive := decide (r.isActive = some "Yes")
    createdAt := cellOr r.createdAt now
    updatedAt := now }

/-! ### General lemmas about the store operations -/

/-- Bulk insertion of key-distinct items into a table none of whose keys
collide with them simply appends the items, with no error. -/
lemma bulkAddKeyed_eq {α : Type} (key : α → String) :
    ∀ (items cur : List α), ((cur ++ items).map key).Nodup →
      bulkAddKeyed key cur items = (false, cur ++ items) := by
  intro items
  induction items with
  | nil => intro cur h; simp [bulkAddKeyed]
  | cons it its ih =>
    intro cur h
    have hne : ¬ ∃ x ∈ cur, key x = key it := by
      rintro ⟨x, hx, hkey⟩
      have hx1 : key x ∈ cur.map key := List.mem_map_of_mem key hx
      have hx2 : key x ∈ (it :: its).map key := by
        rw [hkey]; simp
      rw [List.map_append] at h
      exact (List.disjoint_of_nodup_append h) hx1 hx2
    have step : bulkAddKeyed key cur (it :: its) = bulkAddKeyed key (cur ++ [it]) its := by
      simp [bulkAddKeyed, hne]
    rw [step, ih (cur ++ [it]) (by simpa [List.append_assoc] using h)]
    simp

/-- Folding addition of amounts from an arbitrary starting value. -/
lemma foldl_add_amount (es : List Expense) :
    ∀ a : ℚ, es.foldl (fun acc e => acc + e.amount) a
      = a + (es.map (fun e => e.amount)).sum := by
  induction es with
  | nil => intro a; simp
  | cons e es ih => intro a; simp [ih, add_assoc]

/-- The reduce-based sum equals the sum of the mapped amounts. -/
lemma sumAmounts_eq (es : List Expense) :
    sumAmounts es = (es.map (fun e => e.amount)).sum := by
  simpa [sumAmounts] using foldl_add_amount es 0

/-- Summing after a filter equals summing the amount of matching records and
`0` for the rest. -/
lemma sum_if_filter (p : Expense → Bool) (es : List Expense) :
    ((es.filter p).map (fun e => e.amount)).sum
      = (es.map (fun e => if p e then e.amount else 0)).sum := by
  induction es with
  | nil => simp
  | cons e es ih =>
    rw [List.filter_cons]
    cases h : p e <;> simp [h, ih]

/-- Filter-then-sum via the reduce-based sum. -/
lemma sumAmounts_filter (p : Expense → Bool) (es : List Expense) :
    sumAmounts (es.filter p)
      = (es.map (fun e => if p e then e.amount else 0)).sum := by
  rw [sumAmounts_eq, sum_if_filter]

/-- Membership in the displayed expense list is membership in the stored
collection: ordering by `createdAt` and reversing keep the elements. -/
lemma mem_listExpenses {e : Expense} {s : Store} :
    e ∈ listExpenses s ↔ e ∈ s.expenses := by
  simp [listExpenses, List.mem_reverse, List.mem_insertionSort]

/-- The expenses import step on a cleared table: with key-distinct records it
restores exactly the bundle's list and reports no error. -/
lemma addExpensesStep_clean (ob : Option (List Expense)) (s : Store)
    (hs : s.expenses = [])
    (h : ∀ es, ob = some es → (es.map Expense.id).Nodup) :
    addExpensesStep ob s = (false, { s with expenses := ob.getD [] }) := by
  cases ob with
  | none =>
    simp only [addExpensesStep, Option.getD_none]
    rw [← hs]
  | some es =>
    have hnd : (([] ++ es).map Expense.id).Nodup := by
      simpa using h es rfl
    simp [addExpensesStep, hs, bulkAddKeyed_eq Expense.id es [] hnd]

/-- The budgets import step on a cleared table. -/
lemma addBudgetsStep_clean (ob : Option (List Budget)) (s : Store)
    (hs : s.budgets = [])
    (h : ∀ bs, ob = some bs → (bs.map Budget.id).Nodup) :
    addBudgetsStep ob s = (false, { s with budgets := ob.getD [] }) := by
  cases ob with
  | none =>
    simp only [addBudgetsStep, Option.getD_none]
    rw [← hs]
  | some bs =>
    have hnd : (([] ++ bs).map Budget.id).Nodup := by
      simpa using h bs rfl
    simp [addBudgetsStep, hs, bulkAddKeyed_eq Budget.id bs [] hnd]

/-- The categories import step on a cleared table. -/
lemma addCategoriesStep_clean (ob : Option (List Category)) (s : Store)
    (hs : s.categories = [])
    (h : ∀ cs, ob = some cs → (cs.map Category.id).Nodup) :
    addCategoriesStep ob s = (false, { s with categories := ob.getD [] }) := by
  cases ob with
  | none =>
    simp only [addCategoriesStep, Option.getD_none]
    rw [← hs]
  | some cs =>
    have hnd : (([] ++ cs).map Category.id).Nodup := by
      simpa using h cs rfl
    simp [addCategoriesStep, hs, bulkAddKeyed_eq Category.id cs [] hnd]

/-- The settings import step replaces the singleton when the key is present
and keeps it otherwise. -/
lemma applySettingsStep_eq (os : Option Settings) (s : Store) :
    applySettingsStep os s = { s with settings := os.getD s.settings } := by
  cases os <;> rfl

/-- Confirmed import of a bundle all of whose present collections are
key-distinct: every cleared collection is replaced by the bundle's list (or
left empty when the key is absent), the settings singleton is replaced when
provided, and the import reports success. -/
lemma importParsed_of_nodup (b : Bundle) (s : Store)
    (h1 : ∀ es, b.expenses = some es → (es.map Expense.id).Nodup)
    (h2 : ∀ bs, b.budgets = some bs → (bs.map Budget.id).Nodup)
    (h3 : ∀ cs, b.categories = some cs → (cs.map Category.id).Nodup) :
    importParsed b s =
      (.success,
        { expenses := b.expenses.getD []
          budgets := b.budgets.getD []
          categories := b.categories.getD []
          settings := b.settings.getD s.settings }) := by
  rw [importParsed]
  rw [addExpensesStep_clean b.expenses _ rfl h1]
  simp only
  rw [addBudgetsStep_clean b.budgets _ rfl h2]
  simp only
  rw [addCategoriesStep_clean b.categories _ rfl h3]
  simp only
  rw [applySettingsStep_eq]
  simp

/-! ### Concrete fixtures for witnesses and counterexamples -/

/-- The seeded settings singleton of `db.ts`. -/
def defaultSettings : Settings :=
  { id := "default", currency := "₹", theme := "light", language := "en",
    notifications := true, budgetAlerts := true }

/-- A sample category. -/
def catFood : Category :=
  { id := "cat-food", name := "Food", icon := "utensils", color := "green",
    isDefault := true }

/-- A sample stored expense. -/
def expLunch : Expense :=
  { id := "e-1", amount := 150, date := 19700, time := "12:30",
    category := "cat-food", items := "lunch", place := "cafe", note := "",
    paymentMethod := "UPI", account := "ICICI", isRecurring := false,
    isTemplate := false, attachments := [],
    createdAt := "2023-12-13T12:30:00Z", updatedAt := "2023-12-13T12:30:00Z" }

/-- A sample stored budget. -/
def budMonthly : Budget :=
  { id := "b-1", name := "Food budget", amount := 5000, category := "cat-food",
    period := "monthly", startDate := "2023-12-01", isActive := true,
    createdAt := "2023-12-01T08:00:00Z", updatedAt := "2023-12-01T08:00:00Z" }

/-- A store holding one record per collection. -/
def storeOne : Store :=
  { expenses := [expLunch], budgets := [budMonthly], categories := [catFood],
    settings := defaultSettings }

/-- A freshly initialized store: empty collections, seeded settings. -/
def storeEmpty : Store :=
  { expenses := [], budgets := [], categories := [], settings := defaultSettings }

/-- Two distinct expense records sharing one primary key: bulk-inserting them
makes Dexie `bulkAdd` throw after adding the first. -/
def dupExpenses : List Expense :=
  [{ expLunch with id := "e-dup" }, { expLunch with id := "e-dup", amount := 50 }]

/-- A parsed bundle whose expense list triggers a bulk-insert failure. -/
def badBundle : Bundle :=
  { expenses := some dupExpenses, budgets := some [budMonthly],
    categories := some [catFood], settings := some defaultSettings,
    exportDate := "2024-01-01" }

/-- A well-formed mixed bundle: the expenses key present, the budgets and
categories keys absent. -/
def bundleMixed : Bundle :=
  { expenses := some [expLunch], budgets := none, categories := none,
    settings := some defaultSettings, exportDate := "2024-01-01" }

/-- A valid expense creation payload. -/
def validInput : InsertExpense :=
  { amount := 150, date := 19700, time := "12:30", category := "cat-food",
    items := "lunch", place := "cafe", note := "", paymentMethod := "UPI",
    account := "ICICI", isRecurring := false, isTemplate := false,
    attachments := [] }

/-- A payload violating the form schema's amount positivity. -/
def invalidInput : InsertExpense := { validInput with amount := 0 }

/-- An update object providing no fields. -/
def noChanges : ExpenseUpdate :=
  { amount := none, date := none, time := none, category := none, items := none,
    place := none, note := none, paymentMethod := none, account := none,
    isRecurring := none, isTemplate := none, attachments := none,
    createdAt := none }

/-- A store with a single expense dated epoch day 10 of amount 5. -/
def storeWeek : Store :=
  { storeEmpty with expenses := [{ expLunch with id := "e-f", date := 10, amount := 5 }] }

/-- A worksheet expense row whose `Payment Method` cell is missing. -/
def sampleExpenseRow : ExpenseRow :=
  { date := some 19701, time := some "09:00", amount := some 20,
    category := none, items := none, location := none, paymentMethod := none,
    account := none, notes := none, createdAt := none }

/-- A worksheet budget row whose `Is Active` cell is literally `Yes`. -/
def sampleBudgetRow : BudgetRow :=
  { name := some "Food", amount := some 100, category := none, period := none,
    startDate := none, isActive := some "Yes", createdAt := none }

/-! ### Claim theorems -/

/-- Claim C1: performing a JSON export and then a confirmed JSON import of
that same bundle into a Store reproduces an identical entity set — same ids,
same field values — for all four collections; since a Store is exactly its
four collections, the imported state is the exported store itself.  The
hypotheses record Dexie's primary-key uniqueness of the exported collections,
true of every reachable store state. -/
theorem json_export_import_roundtrip (s target : Store) (d : String)
    (h1 : (s.expenses.map Expense.id).Nodup)
    (h2 : (s.budgets.map Budget.id).Nodup)
    (h3 : (s.categories.map Category.id).Nodup) :
    importData (some (exportData s d)) true target = (.success, s) := by
  have g1 : ∀ es, (exportData s d).expenses = some es → (es.map Expense.id).Nodup := by
    intro es h
    injection h with h
    rw [← h]; exact h1
  have g2 : ∀ bs, (exportData s d).budgets = some bs → (bs.map Budget.id).Nodup := by
    intro bs h
    injection h with h
    rw [← h]; exact h2
  have g3 : ∀ cs, (exportData s d).categories = some cs → (cs.map Category.id).Nodup := by
    intro cs h
    injection h with h
    rw [← h]; exact h3
  show importParsed (exportData s d) target = (.success, s)
  rw [importParsed_of_nodup _ _ g1 g2 g3]
  rfl

/-- Witness for C1: round trip of a concrete one-record store into a freshly
initialized store. -/
theorem json_export_import_roundtrip_witness :
    importData (some (exportData storeOne "2024-01-01")) true storeEmpty
      = (ImportOutcome.success, storeOne) :=
  json_export_import_roundtrip storeOne storeEmpty "2024-01-01"
    (by decide) (by decide) (by decide)

/-- Claim C2: a document that is not well-formed JSON makes the import report
its error outcome and leaves the whole store — all four collections —
untouched: `JSON.parse` runs before the confirmation dialog and before any
clear, so the failure aborts before any mutation. -/
theorem import_malformed_aborts (c : Bool) (s : Store) :
    importData none c s = (.importError, s) := rfl

/-- Claim C3 counterexample: a parsed bundle whose expense list holds two
records with one id makes the bulk insert fail after the destructive clear,
and the outcome is the very same generic import-error report as a parse
failure — the mid-sequence failure is not surfaced distinctly.  The mutated
store (budgets cleared, not restored) shows the failure really happened after
the clear. -/
theorem import_midfail_counterexample :
    (importData (some badBundle) true storeOne).1 = (importData none true storeOne).1 ∧
    (importData (some badBundle) true storeOne).2.budgets = [] ∧
    (importData (some badBundle) true storeOne).2 ≠ storeOne := by decide

/-- Claim C3 amended: a bulk-insert failure occurring after the destructive
clear is caught by the same handler as a parse failure and reported with the
same generic import-error outcome — no distinct fatal error exists — and the
store is left cleared apart from the partially inserted expense records. -/
theorem import_midfail_generic (b : Bundle) (s : Store) (es : List Expense)
    (hbe : b.expenses = some es)
    (hfail : (bulkAddKeyed Expense.id [] es).1 = true) :
    importData (some b) true s =
      (.importError,
        { s with expenses := (bulkAddKeyed Expense.id [] es).2,
                 budgets := [], categories := [] }) ∧
    (importData none true s).1 = .importError := by
  refine ⟨?_, rfl⟩
  show importParsed b s = _
  rw [importParsed, hbe]
  simp only [addExpensesStep]
  simp [hfail]

/-- Witness for the amended C3 at the concrete duplicate-id bundle. -/
theorem import_midfail_generic_witness :
    (importData (some badBundle) true storeOne).1 = ImportOutcome.importError := by
  rw [(import_midfail_generic badBundle storeOne dupExpenses rfl (by decide)).1]

/-- Claim C4: inserting an expense and listing the collection yields an
entity with every input field preserved, a non-empty id and non-empty equal
`createdAt`/`updatedAt` timestamps.  The hypotheses record environment facts:
`crypto.randomUUID` returns a non-empty fresh identifier and
`toISOString` a non-empty timestamp. -/
theorem insert_then_list (input : InsertExpense) (newId now : String) (s : Store)
    (hid : newId ≠ "") (hnow : now ≠ "")
    (hfresh : ∀ e ∈ s.expenses, e.id ≠ newId) :
    (addExpense input newId now s).1 = .success ∧
    ∃ e ∈ listExpenses (addExpense input newId now s).2,
      e.amount = input.amount ∧ e.date = input.date ∧ e.time = input.time ∧
      e.category = input.category ∧ e.items = input.items ∧
      e.place = input.place ∧ e.note = input.note ∧
      e.paymentMethod = input.paymentMethod ∧ e.account = input.account ∧
      e.isRecurring = input.isRecurring ∧ e.isTemplate = input.isTemplate ∧
      e.attachments = input.attachments ∧
      e.id = newId ∧ e.id ≠ "" ∧ e.createdAt ≠ "" ∧ e.updatedAt ≠ "" ∧
      e.createdAt = e.updatedAt := by
  have hany : ¬ ∃ e ∈ s.expenses, e.id = newId := by
    rintro ⟨e, he, heq⟩
    exact hfresh e he heq
  refine ⟨by simp [addExpense, hany], mkExpense input newId now, ?_, ?_⟩
  · rw [mem_listExpenses]
    simp [addExpense, hany]
  · simp [mkExpense, hid, hnow]

/-- Witness for C4 at a concrete payload and store. -/
theorem insert_then_list_witness :
    (addExpense validInput "e-new" "2024-01-02T10:00:00Z" storeOne).1
      = MutationOutcome.success :=
  (insert_then_list validInput "e-new" "2024-01-02T10:00:00Z" storeOne
    (by decide) (by decide) (by decide)).1

/-- Claim C5 counterexample: updating an id absent from the collection does
not fail with NotFoundError — the mutation resolves as a successful silent
no-op — and an update applied while the clock string is unchanged leaves
`updatedAt` equal to its prior value. -/
theorem update_notfound_counterexample :
    updateExpense "missing" noChanges "2024-01-02T10:00:00Z" storeOne
      = (MutationOutcome.success, storeOne) ∧
    MutationOutcome.success ≠ MutationOutcome.notFound ∧
    (updateExpense "e-1" noChanges expLunch.updatedAt storeOne).2.expenses.map
        Expense.updatedAt = [expLunch.updatedAt] := by decide

/-- Claim C5 amended: update always resolves successfully; an absent id is a
silent no-op (no NotFoundError); a present id has the provided fields merged,
`updatedAt` set to the supplied clock value (equal to the prior value exactly
when the clock string is unchanged), `id` always preserved, and `createdAt`
preserved whenever the update does not itself provide it. -/
theorem update_semantics (id : String) (u : ExpenseUpdate) (now : String) (s : Store) :
    (updateExpense id u now s).1 = .success ∧
    ((∀ e ∈ s.expenses, e.id ≠ id) → (updateExpense id u now s).2 = s) ∧
    (∀ e ∈ s.expenses, e.id = id →
      applyExpenseUpdate e u now ∈ (updateExpense id u now s).2.expenses ∧
      (applyExpenseUpdate e u now).id = e.id ∧
      (u.createdAt = none → (applyExpenseUpdate e u now).createdAt = e.createdAt) ∧
      (applyExpenseUpdate e u now).updatedAt = now ∧
      (applyExpenseUpdate e u now).amount = u.amount.getD e.amount ∧
      (applyExpenseUpdate e u now).date = u.date.getD e.date ∧
      (applyExpenseUpdate e u now).time = u.time.getD e.time ∧
      (applyExpenseUpdate e u now).category = u.category.getD e.category ∧
      (applyExpenseUpdate e u now).paymentMethod = u.paymentMethod.getD e.paymentMethod ∧
      (applyExpenseUpdate e u now).account = u.account.getD e.account ∧
      (applyExpenseUpdate e u now).note = u.note.getD e.note) := by
  refine ⟨rfl, ?_, ?_⟩
  · intro hab
    have hmap : ∀ (l : List Expense), (∀ e ∈ l, e.id ≠ id) →
        l.map (fun e => if e.id = id then applyExpenseUpdate e u now else e) = l := by
      intro l
      induction l with
      | nil => intro _; simp
      | cons x xs ih =>
        intro hx
        simp only [List.map_cons]
        rw [if_neg (hx x (List.mem_cons_self x xs)),
          ih (fun e he => hx e (List.mem_cons_of_mem x he))]
    show { s with expenses := _ } = s
    rw [hmap s.expenses hab]
  · intro e he heq
    refine ⟨?_, rfl, ?_, rfl, rfl, rfl, rfl, rfl, rfl, rfl, rfl⟩
    · have himg : applyExpenseUpdate e u now
          = (fun x => if x.id = id then applyExpenseUpdate x u now else x) e := by
        simp [heq]
      rw [himg]
      exact List.mem_map_of_mem _ he
    · intro hc
      simp [applyExpenseUpdate, hc]

/-- Witness for the amended C5: a no-op update of an absent id on a concrete
store. -/
theorem update_semantics_witness :
    (updateExpense "missing" noChanges "2024-01-02T10:00:00Z" storeOne).2 = storeOne :=
  (update_semantics "missing" noChanges "2024-01-02T10:00:00Z" storeOne).2.1 (by decide)

/-- Claim C6 counterexample: an input whose amount is not positive is
rejected by the UI form schema, yet the store insert succeeds and stores
it — the core raises no ValidationError. -/
theorem insert_validation_counterexample :
    validExpenseForm invalidInput = false ∧
    addExpense invalidInput "e-bad" "2024-01-02T10:00:00Z" storeEmpty
      = (MutationOutcome.success,
          { storeEmpty with
            expenses := [mkExpense invalidInput "e-bad" "2024-01-02T10:00:00Z"] }) ∧
    MutationOutcome.success ≠ MutationOutcome.validationError := by decide

/-- Claim C6 amended: the structural constraints live only in the UI-level
form schema; the store insert performs no validation of its own and succeeds
— storing the entity — even for inputs the form schema rejects. -/
theorem insert_no_core_validation (input : InsertExpense) (newId now : String)
    (s : Store)
    (hfresh : ∀ e ∈ s.expenses, e.id ≠ newId)
    (_hinvalid : validExpenseForm input = false) :
    (addExpense input newId now s).1 = .success ∧
    mkExpense input newId now ∈ (addExpense input newId now s).2.expenses := by
  have hany : ¬ ∃ e ∈ s.expenses, e.id = newId := by
    rintro ⟨e, he, heq⟩
    exact hfresh e he heq
  constructor <;> simp [addExpense, hany]

/-- Witness for the amended C6 at the concrete invalid payload. -/
theorem insert_no_core_validation_witness :
    (addExpense invalidInput "e-bad" "2024-01-02T10:00:00Z" storeEmpty).1
      = MutationOutcome.success :=
  (insert_no_core_validation invalidInput "e-bad" "2024-01-02T10:00:00Z" storeEmpty
    (by decide) (by decide)).1

/-- Claim C7: the windowed total is the sum of the amounts of exactly the
expenses whose date lies in the closed interval, and it is `0` over an empty
store as well as over a window matching no records — never a failure. -/
theorem rangeTotal_spec (lo hi : Int) (s : Store) :
    rangeTotal lo hi s =
      (s.expenses.map (fun e =>
        if lo ≤ e.date ∧ e.date ≤ hi then e.amount else 0)).sum ∧
    (s.expenses = [] → rangeTotal lo hi s = 0) ∧
    ((∀ e ∈ s.expenses, ¬(lo ≤ e.date ∧ e.date ≤ hi)) → rangeTotal lo hi s = 0) := by
  have hmain : rangeTotal lo hi s =
      (s.expenses.map (fun e =>
        if lo ≤ e.date ∧ e.date ≤ hi then e.amount else 0)).sum := by
    rw [rangeTotal, sumAmounts_filter]
    simp
  refine ⟨hmain, ?_, ?_⟩
  · intro h
    rw [rangeTotal, h]
    rfl
  · intro h
    have hnil : s.expenses.filter
        (fun e => decide (lo ≤ e.date) && decide (e.date ≤ hi)) = [] := by
      rw [List.filter_eq_nil_iff]
      intro e he
      simpa using h e he
    rw [rangeTotal, hnil]
    rfl

/-- Witness for C7: a window matching none of a concrete store's records
totals zero. -/
theorem rangeTotal_spec_witness : rangeTotal 0 10 storeOne = 0 :=
  (rangeTotal_spec 0 10 storeOne).2.2 (by decide)

/-- Claim C8 counterexample: on epoch day 3 — a Sunday, so the 7-day span of
that week is days 3 through 9 — the `useExpenseStats` week total counts an
expense dated day 10, after the following Saturday: it is 5 while the sum over
the Sunday-to-Saturday span (the bounded `useExpenseTotals` aggregate) is 0. -/
theorem week_total_counterexample :
    dayOfWeek 3 = 0 ∧
    weekTotalStats 3 storeWeek = 5 ∧
    weekTotalRange 3 storeWeek = 0 ∧
    weekTotalStats 3 storeWeek ≠ weekTotalRange 3 storeWeek := by
  have h2 : weekTotalStats 3 storeWeek = 5 := by
    norm_num [weekTotalStats, sumAmounts, sundayOf, dayOfWeek, storeWeek, storeEmpty]
  have h3 : weekTotalRange 3 storeWeek = 0 := by
    norm_num [weekTotalRange, sumAmounts, sundayOf, dayOfWeek, storeWeek, storeEmpty]
  refine ⟨by decide, h2, h3, ?_⟩
  rw [h2, h3]
  norm_num

/-- Claim C8 amended: the week anchor is the Sunday of the week containing
today (day-of-week 0, with today within its 7-day span); the
`useExpenseTotals` week aggregate sums exactly the expenses between that
Sunday and the following Saturday inclusive, while the `useExpenseStats` week
aggregate applies only the lower bound, so every expense dated on or after
that Sunday contributes — including dates after the following Saturday. -/
theorem week_totals_spec (today : Int) (s : Store) :
    dayOfWeek (sundayOf today) = 0 ∧
    sundayOf today ≤ today ∧ today ≤ sundayOf today + 6 ∧
    weekTotalRange today s =
      (s.expenses.map (fun e =>
        if sundayOf today ≤ e.date ∧ e.date ≤ sundayOf today + 6
        then e.amount else 0)).sum ∧
    weekTotalStats today s =
      (s.expenses.map (fun e =>
        if sundayOf today ≤ e.date then e.amount else 0)).sum := by
  refine ⟨?_, ?_, ?_, ?_, ?_⟩
  · unfold dayOfWeek sundayOf dayOfWeek
    omega
  · unfold sundayOf dayOfWeek
    omega
  · unfold sundayOf dayOfWeek
    omega
  · rw [weekTotalRange, sumAmounts_filter]
    simp
  · rw [weekTotalStats, sumAmounts_filter]
    simp

/-- Claim C9: every imported worksheet row is assigned the freshly generated
identifier (rows carry no id column, so original ids are never reused); a row
whose `Payment Method` cell is missing yields an Expense with payment method
`UPI`; a budget row's `isActive` is true exactly when its `Is Active` cell is
literally `Yes`. -/
theorem workbook_row_defaults (er : ExpenseRow) (br : BudgetRow)
    (fid : String) (today : Int) (tds now : String)
    (hpm : er.paymentMethod = none) :
    (rowToExpense er fid today now).paymentMethod = "UPI" ∧
    (rowToExpense er fid today now).id = fid ∧
    (rowToBudget br fid tds now).id = fid ∧
    ((rowToBudget br fid tds now).isActive = true ↔ br.isActive = some "Yes") := by
  refine ⟨?_, rfl, rfl, ?_⟩
  · simp [rowToExpense, hpm, cellOr]
  · simp [rowToBudget]

/-- Witness for C9 at concrete worksheet rows. -/
theorem workbook_row_defaults_witness :
    (rowToExpense sampleExpenseRow "f-1" 19700 "2024-01-02T10:00:00Z").paymentMethod
      = "UPI" :=
  (workbook_row_defaults sampleExpenseRow sampleBudgetRow "f-1" 19700
    "2024-01-01" "2024-01-02T10:00:00Z" rfl).1

/-- Claim C10: for every well-formed bundle — whatever mix of the three
collection keys it carries — a confirmed import reports success, and each of
the expenses, budgets and categories collections whose key is absent from the
bundle is cleared with nothing restored into it: it ends empty.  The
hypotheses record Dexie primary-key uniqueness of the collections the bundle
does carry (true of every bundle produced by export), without which the
present collections could not bulk-insert cleanly. -/
theorem import_absent_keys (b : Bundle) (s : Store)
    (h1 : ((b.expenses.getD []).map Expense.id).Nodup)
    (h2 : ((b.budgets.getD []).map Budget.id).Nodup)
    (h3 : ((b.categories.getD []).map Category.id).Nodup) :
    (importData (some b) true s).1 = .success ∧
    (b.expenses = none → (importData (some b) true s).2.expenses = []) ∧
    (b.budgets = none → (importData (some b) true s).2.budgets = []) ∧
    (b.categories = none → (importData (some b) true s).2.categories = []) := by
  have g1 : ∀ es, b.expenses = some es → (es.map Expense.id).Nodup := by
    intro es h
    rw [h] at h1
    exact h1
  have g2 : ∀ bs, b.budgets = some bs → (bs.map Budget.id).Nodup := by
    intro bs h
    rw [h] at h2
    exact h2
  have g3 : ∀ cs, b.categories = some cs → (cs.map Category.id).Nodup := by
    intro cs h
    rw [h] at h3
    exact h3
  have hrun : importData (some b) true s = importParsed b s := rfl
  rw [hrun, importParsed_of_nodup b s g1 g2 g3]
  refine ⟨rfl, ?_, ?_, ?_⟩ <;> intro hx <;> rw [hx] <;> rfl

/-- Witness for C10 at a concrete mixed bundle — expenses key present,
budgets and categories keys absent — imported into a populated store:
the import succeeds and the budgets collection, whose key is absent, ends
empty. -/
theorem import_absent_keys_witness :
    (importData (some bundleMixed) true storeOne).1 = ImportOutcome.success ∧
    (importData (some bundleMixed) true storeOne).2.budgets = [] := by
  have h := import_absent_keys bundleMixed storeOne (by decide) (by decide) (by decide)
  exact ⟨h.1, h.2.2.1 rfl⟩

end ETSep
